import Mathlib

/-!
# Verification of PySAR `asc_desc.py`

A shallow embedding of `pysar/asc_desc.py`, the PySAR tool that decomposes
ascending / descending line-of-sight (LOS) InSAR displacement rasters into
vertical and horizontal components, followed by theorems settling the
specification claims.

Modelling conventions:
* Python floats are modelled by `ℝ`.
* A Python attribute dictionary (string keys, string values) is modelled by
  `String → Option String`; the numeric values the script parses out of it
  (`float(atr[...])`) are carried alongside as real fields of `Attr`,
  since float-string parsing is outside the embedding.
* `np.linalg.pinv` is external library code (numpy); it is modelled by its
  documented contract, the Moore–Penrose pseudo-inverse, via a closed-form
  2×2 construction, and the four Penrose conditions are proved for it.
* Fallible control flow (`sys.exit`) is modelled with `Except String`.
-/

open Matrix

noncomputable section

namespace PySAR

/-- Degrees to radians, the `x *= np.pi/180.` conversion used throughout
`asc_desc.py` (lines 76, 120, 125). -/
def deg2rad (x : ℝ) : ℝ := x * (Real.pi / 180)

/-- The shift-negative-angles-by-360 normalization applied both to the
azimuth in `cmdLineParse` (lines 74–75) and to each `HEADING` in `main`
(lines 117–118): `if a < 0.: a += 360.`. -/
def normalizeAngle (a : ℝ) : ℝ := if a < 0 then a + 360 else a

/-- The azimuth actually used by `main`: `cmdLineParse` normalizes the
user-supplied degree value and converts it to radians (lines 74–76). -/
def azimuthRad (az : ℝ) : ℝ := deg2rad (normalizeAngle az)

/-- The heading value appended to `heading` in `main` (lines 116–121):
the file's `HEADING` attribute, normalized and converted to radians. -/
def headingRad (h : ℝ) : ℝ := deg2rad (normalizeAngle h)

/-- The incidence value appended to `incidence` in `main` (lines 123–126):
degrees converted to radians, with no normalization step. -/
def incidenceRad (x : ℝ) : ℝ := deg2rad x

/-- A single element assignment `A[i,j] = v` on a 2×2 numpy array. -/
def setEntry (A : Matrix (Fin 2) (Fin 2) ℝ) (i j : Fin 2) (v : ℝ) :
    Matrix (Fin 2) (Fin 2) ℝ :=
  Function.update A i (Function.update (A i) j v)

/-- The design-matrix construction of `main` (lines 135–138):
`A = np.zeros((2,2))`, then for each `i in range(2)`,
`A[i,0] = cos(incidence[i])` and
`A[i,1] = sin(incidence[i]) * sin(heading[i] - azimuth)`.
The arguments are the already-converted radian values. -/
def designMatrix (incidence heading : Fin 2 → ℝ) (az : ℝ) :
    Matrix (Fin 2) (Fin 2) ℝ :=
  ([0, 1] : List (Fin 2)).foldl
    (fun A i =>
      setEntry (setEntry A i 0 (Real.cos (incidence i))) i 1
        (Real.sin (incidence i) * Real.sin (heading i - az)))
    (0 : Matrix (Fin 2) (Fin 2) ℝ)

/-- Squared Frobenius norm of a 2×2 real matrix (sum of squared entries). -/
def frobSq (A : Matrix (Fin 2) (Fin 2) ℝ) : ℝ := ∑ i, ∑ j, (A i j) ^ 2

open Classical in
/-- Modelled from the spec: `np.linalg.pinv` (numpy, an external library for
this repository) is, per the spec's words, "a least-squares (Moore–Penrose
pseudo-inverse)".  For a 2×2 real matrix the Moore–Penrose pseudo-inverse has
the closed form below: the ordinary inverse when the determinant is nonzero,
the zero matrix for the zero matrix, and `Aᵀ / ‖A‖_F²` in the remaining
rank-one case.  The four Penrose conditions, which characterize the
pseudo-inverse uniquely, are proved for this definition below
(`pinv2_mul_self` and companions). -/
def pinv2 (A : Matrix (Fin 2) (Fin 2) ℝ) : Matrix (Fin 2) (Fin 2) ℝ :=
  if A.det = 0 then (if A = 0 then 0 else (frobSq A)⁻¹ • Aᵀ) else A⁻¹

/-- The projection of `main` lines 140–141:
`A_inv = np.linalg.pinv(A); u_vh = np.dot(A_inv, u_los)`, acting on the
stacked LOS array of shape 2 × m (with `m = width*length`). -/
def solveVH (m : ℕ) (A : Matrix (Fin 2) (Fin 2) ℝ)
    (uLos : Matrix (Fin 2) (Fin m) ℝ) : Matrix (Fin 2) (Fin m) ℝ :=
  pinv2 A * uLos

/-- The attribute set of one input file, as `main` consumes it.  The raw
Python object is a string-keyed dictionary (the `dict` field); the numeric
values that the script obtains from it — the bounding box that
`ut.four_corners` derives, and `float(atr['X_STEP'])` /
`float(atr['Y_STEP'])` — are carried alongside as real fields, since
float-string parsing is external to this embedding. -/
structure Attr where
  dict : String → Option String
  west : ℝ
  east : ℝ
  south : ℝ
  north : ℝ
  xStep : ℝ
  yStep : ℝ

/-- Modelled from the spec: `ut.four_corners` (defined in
`pysar._pysar_utilities`, which is not under `src/`) returns, per the
spec's GeoRasterRef data model, the file's "bounding box (west, east,
south, north in degrees)" from its attribute set. -/
def four_corners (atr : Attr) : ℝ × ℝ × ℝ × ℝ :=
  (atr.west, atr.east, atr.south, atr.north)

/-- The function `get_overlap_lalo` (lines 24–39): the overlap area of two geocoded
files, returned in the order west, east, south, north. -/
def get_overlap_lalo (atr1 atr2 : Attr) : ℝ × ℝ × ℝ × ℝ :=
  match four_corners atr1, four_corners atr2 with
  | (w1, e1, s1, n1), (w2, e2, s2, n2) =>
    (max w1 w2, min e1 e2, max s1 s2, min n1 n2)

/-- Python 2's `int(round(x))`: rounding half away from zero (`round`),
then integer conversion (a no-op on the already-integral value). -/
def pyRound (x : ℝ) : ℤ := if x < 0 then -⌊-x + 1 / 2⌋ else ⌊x + 1 / 2⌋

/-- The values computed by the setup stage of `main` (lines 95–99). -/
structure SetupResult where
  west : ℝ
  east : ℝ
  south : ℝ
  north : ℝ
  lonStep : ℝ
  latStep : ℝ
  width : ℤ
  length : ℤ

/-- The setup stage of `main`, lines 86–99: read both attribute sets, abort (`sys.exit`,
modelled as `Except.error`) unless both carry `X_FIRST`, then intersect
the footprints and derive the output grid size from the overlap extent and
the FIRST input's step sizes.  The source applies no further validation at
this stage: there is no check that the overlap is non-degenerate, and no
check that the two files' step sizes agree. -/
def mainSetup (atr1 atr2 : Attr) : Except String SetupResult :=
  if atr1.dict "X_FIRST" = none ∨ atr2.dict "X_FIRST" = none then
    Except.error "ERROR: Not all input files are geocoded."
  else
    let ov := get_overlap_lalo atr1 atr2
    let west := ov.1
    let east := ov.2.1
    let south := ov.2.2.1
    let north := ov.2.2.2
    let lonStep := atr1.xStep
    let latStep := atr1.yStep
    Except.ok
      ⟨west, east, south, north, lonStep, latStep,
        pyRound ((east - west) / lonStep),
        pyRound ((south - north) / latStep)⟩

/-- The flat row-major index `r*W + c` into an `(L, W)` grid. -/
def flatIdx (L W : ℕ) (r : Fin L) (c : Fin W) : Fin (L * W) :=
  ⟨r.val * W + c.val,
    lt_of_lt_of_le (Nat.add_lt_add_left c.isLt _)
      (by rw [← Nat.succ_mul]; exact Nat.mul_le_mul_right W r.isLt)⟩

/-- Numpy's `np.reshape(v, (L, W))` on a flat vector of length `L*W`, in numpy's
default C (row-major) order: entry `(r, c)` is flat entry `r*W + c`. -/
def reshapeRowMajor (L W : ℕ) (v : Fin (L * W) → ℝ) :
    Fin L → Fin W → ℝ :=
  fun r c => v (flatIdx L W r c)

/-- The attribute construction of `main`, lines 148–154: `atr = atr1.copy()` followed by the six key
assignments `WIDTH`, `FILE_LENGTH`, `X_FIRST`, `Y_FIRST`, `X_STEP`,
`Y_STEP`, in source order.  `fstr` stands for Python's `str(...)`
rendering of a float (the rendering itself is external to the embedding);
the two integer dimensions are rendered with `toString`, which agrees with
`str` on natural numbers. -/
def updateAttrs (atr1 : String → Option String) (width length : ℕ)
    (west north lonStep latStep : ℝ) (fstr : ℝ → String) :
    String → Option String :=
  Function.update
    (Function.update
      (Function.update
        (Function.update
          (Function.update
            (Function.update atr1 "WIDTH" (some (toString width)))
            "FILE_LENGTH" (some (toString length)))
          "X_FIRST" (some (fstr west)))
        "Y_FIRST" (some (fstr north)))
      "X_STEP" (some (fstr lonStep)))
    "Y_STEP" (some (fstr latStep))

/-- One call to `writefile.write(data, atr, outname)` (the external
writer): the array handed over, the attribute dictionary, and the file
name. -/
structure WriteCall where
  rows : ℕ
  cols : ℕ
  data : Fin rows → Fin cols → ℝ
  attr : String → Option String
  name : String

/-- The output stage of `main`, lines 143–163: reshape the two solved rows to `(length, width)`
grids, build the output attribute dictionary once from the first input's
dictionary, and issue the two write calls — vertical first, horizontal
second — both carrying that same dictionary.  `west` and `north` are the
footprint origin from the setup stage; the step sizes written are the
first input's (`lon_step = float(atr1['X_STEP'])`, line 96). -/
def mainOutputs (L W : ℕ) (uvh : Fin 2 → Fin (L * W) → ℝ) (atr1 : Attr)
    (west north : ℝ) (fstr : ℝ → String) (out0 out1 : String) :
    WriteCall × WriteCall :=
  let uv := reshapeRowMajor L W (uvh 0)
  let uh := reshapeRowMajor L W (uvh 1)
  let atr := updateAttrs atr1.dict W L west north atr1.xStep atr1.yStep fstr
  (⟨L, W, uv, atr, out0⟩, ⟨L, W, uh, atr, out1⟩)

/-- A minimal geocoded attribute dictionary for concrete instances. -/
def geoDict : String → Option String :=
  fun k => if k = "X_FIRST" then some "10.0" else none

/-- A geocoded input with bounding box W=0, E=1, S=0, N=1 (steps 1, −1). -/
def atrDisjA : Attr := ⟨geoDict, 0, 1, 0, 1, 1, -1⟩

/-- A geocoded input with bounding box W=2, E=3, S=2, N=3, geographically
disjoint from `atrDisjA`. -/
def atrDisjB : Attr := ⟨geoDict, 2, 3, 2, 3, 1, -1⟩

/-- A geocoded input with pixel steps 1/1000 and −1/1000. -/
def atrStepA : Attr := ⟨geoDict, 0, 1, 0, 1, 1 / 1000, -(1 / 1000)⟩

/-- A geocoded input with the same bounding box as `atrStepA` but the
mismatched pixel steps 1/500 and −1/500. -/
def atrStepB : Attr := ⟨geoDict, 0, 1, 0, 1, 1 / 500, -(1 / 500)⟩

/-- A non-geocoded input: its dictionary lacks `X_FIRST`. -/
def atrNoGeo : Attr := ⟨fun _ => none, 0, 1, 0, 1, 1, -1⟩

/-- A concrete first-input dictionary carrying extra metadata keys. -/
def metaDict : String → Option String :=
  fun k =>
    if k = "X_FIRST" then some "10.0"
    else if k = "HEADING" then some "-168.0"
    else if k = "FILE_TYPE" then some "velocity"
    else none

/-- A geocoded input built on `metaDict`. -/
def atrMeta : Attr := ⟨metaDict, 0, 1, 0, 1, 1, -1⟩

/-- Concrete heading inputs (degrees) for witnesses. -/
def hdegW : Fin 2 → ℝ := fun i => -90 - 10 * (i : ℝ)

/-- Concrete incidence inputs (degrees, already in radians form unused)
for witnesses. -/
def incW : Fin 2 → ℝ := fun i => 35 + (i : ℝ)

/-- Entrywise extensionality for 2×2 matrices with literal indices. -/
lemma ext2 {A B : Matrix (Fin 2) (Fin 2) ℝ} (h00 : A 0 0 = B 0 0)
    (h01 : A 0 1 = B 0 1) (h10 : A 1 0 = B 1 0) (h11 : A 1 1 = B 1 1) :
    A = B := by
  ext i j
  fin_cases i <;> fin_cases j <;> assumption

lemma frobSq_ne_zero {A : Matrix (Fin 2) (Fin 2) ℝ} (h : A ≠ 0) :
    frobSq A ≠ 0 := by
  intro h0
  apply h
  have e : A 0 0 ^ 2 + A 0 1 ^ 2 + (A 1 0 ^ 2 + A 1 1 ^ 2) = 0 := by
    simpa [frobSq, Fin.sum_univ_two] using h0
  apply ext2 <;>
    · simp only [Matrix.zero_apply]
      nlinarith [sq_nonneg (A 0 0), sq_nonneg (A 0 1), sq_nonneg (A 1 0),
        sq_nonneg (A 1 1)]

lemma frobSq_transpose (A : Matrix (Fin 2) (Fin 2) ℝ) :
    frobSq Aᵀ = frobSq A := by
  simp [frobSq, Fin.sum_univ_two, Matrix.transpose_apply]
  ring

/-- For a singular 2×2 real matrix, `A Aᵀ A = ‖A‖_F² • A`. -/
lemma mul_transpose_mul_self (A : Matrix (Fin 2) (Fin 2) ℝ)
    (h : A.det = 0) : A * Aᵀ * A = frobSq A • A := by
  have hd : A 0 0 * A 1 1 - A 0 1 * A 1 0 = 0 := by
    rw [Matrix.det_fin_two] at h; linarith
  apply ext2 <;>
    simp only [Matrix.mul_apply, Matrix.transpose_apply, Matrix.smul_apply,
      Fin.sum_univ_two, frobSq, smul_eq_mul]
  · linear_combination (-(A 1 1)) * hd
  · linear_combination (A 1 0) * hd
  · linear_combination (A 0 1) * hd
  · linear_combination (-(A 0 0)) * hd

/-- Entry formulas for the design matrix: unrolling the construction
loop. -/
lemma designMatrix_apply (incidence heading : Fin 2 → ℝ) (az : ℝ)
    (i : Fin 2) :
    designMatrix incidence heading az i 0 = Real.cos (incidence i) ∧
    designMatrix incidence heading az i 1 =
      Real.sin (incidence i) * Real.sin (heading i - az) := by
  fin_cases i <;> simp [designMatrix, setEntry, Function.update]

/-- When the second column of `A` is zero, so is the second row of
`pinv2 A`. -/
lemma pinv2_row1_zero {A : Matrix (Fin 2) (Fin 2) ℝ}
    (hcol : ∀ i, A i 1 = 0) (k : Fin 2) : pinv2 A 1 k = 0 := by
  have hdet : A.det = 0 := by
    rw [Matrix.det_fin_two, hcol 0, hcol 1]; ring
  unfold pinv2
  rw [if_pos hdet]
  by_cases hz : A = 0
  · rw [if_pos hz]; simp
  · rw [if_neg hz]
    simp [Matrix.smul_apply, Matrix.transpose_apply, hcol k]

/-- First Penrose condition: `A (pinv2 A) A = A`. -/
lemma pinv2_mul_self (A : Matrix (Fin 2) (Fin 2) ℝ) :
    A * pinv2 A * A = A := by
  unfold pinv2
  by_cases hdet : A.det = 0
  · rw [if_pos hdet]
    by_cases hz : A = 0
    · rw [if_pos hz, hz]; simp
    · rw [if_neg hz, mul_smul_comm, smul_mul_assoc,
        mul_transpose_mul_self A hdet, smul_smul,
        inv_mul_cancel₀ (frobSq_ne_zero hz), one_smul]
  · rw [if_neg hdet,
      Matrix.mul_nonsing_inv A (isUnit_iff_ne_zero.mpr hdet), one_mul]

/-- Second Penrose condition: `(pinv2 A) A (pinv2 A) = pinv2 A`. -/
lemma pinv2_self_mul (A : Matrix (Fin 2) (Fin 2) ℝ) :
    pinv2 A * A * pinv2 A = pinv2 A := by
  unfold pinv2
  by_cases hdet : A.det = 0
  · rw [if_pos hdet]
    by_cases hz : A = 0
    · rw [if_pos hz, hz]; simp
    · rw [if_neg hz]
      have key : Aᵀ * A * Aᵀ = frobSq A • Aᵀ := by
        have := mul_transpose_mul_self Aᵀ (by rwa [Matrix.det_transpose])
        rwa [Matrix.transpose_transpose, frobSq_transpose] at this
      rw [smul_mul_assoc, smul_mul_assoc, mul_smul_comm, key, smul_smul,
        smul_smul, mul_comm ((frobSq A)⁻¹), mul_assoc,
        inv_mul_cancel₀ (frobSq_ne_zero hz), mul_one]
  · rw [if_neg hdet,
      Matrix.nonsing_inv_mul A (isUnit_iff_ne_zero.mpr hdet), one_mul]

/-- Third Penrose condition: `A (pinv2 A)` is symmetric. -/
lemma pinv2_mul_symm (A : Matrix (Fin 2) (Fin 2) ℝ) :
    (A * pinv2 A)ᵀ = A * pinv2 A := by
  unfold pinv2
  by_cases hdet : A.det = 0
  · rw [if_pos hdet]
    by_cases hz : A = 0
    · rw [if_pos hz, hz]; simp
    · rw [if_neg hz, mul_smul_comm, Matrix.transpose_smul,
        Matrix.transpose_mul, Matrix.transpose_transpose]
  · rw [if_neg hdet,
      Matrix.mul_nonsing_inv A (isUnit_iff_ne_zero.mpr hdet),
      Matrix.transpose_one]

/-- Fourth Penrose condition: `(pinv2 A) A` is symmetric. -/
lemma pinv2_symm_mul (A : Matrix (Fin 2) (Fin 2) ℝ) :
    (pinv2 A * A)ᵀ = pinv2 A * A := by
  unfold pinv2
  by_cases hdet : A.det = 0
  · rw [if_pos hdet]
    by_cases hz : A = 0
    · rw [if_pos hz, hz]; simp
    · rw [if_neg hz, smul_mul_assoc, Matrix.transpose_smul,
        Matrix.transpose_mul, Matrix.transpose_transpose]
  · rw [if_neg hdet,
      Matrix.nonsing_inv_mul A (isUnit_iff_ne_zero.mpr hdet),
      Matrix.transpose_one]

end PySAR

/-- C1: each row `i` of the design matrix built by `main` is
`[cos(θ_i), sin(θ_i)·sin(α_i − az)]`. -/
theorem C1_design_matrix_rows (incidence heading : Fin 2 → ℝ) (az : ℝ)
    (i : Fin 2) :
    PySAR.designMatrix incidence heading az i 0 = Real.cos (incidence i) ∧
    PySAR.designMatrix incidence heading az i 1 =
      Real.sin (incidence i) * Real.sin (heading i - az) := by
  fin_cases i <;>
    simp [PySAR.designMatrix, PySAR.setEntry, Function.update]

/-- C2: the solver's output applies one and the same matrix — the
Moore–Penrose pseudo-inverse of `A` — to every pixel: for each pixel `j`,
the output column `[V; H]` equals `pinv(A)` times that pixel's LOS column
`[L_0; L_1]`, and `pinv2 A` satisfies the four Penrose conditions that
uniquely characterize the Moore–Penrose pseudo-inverse, with no case
excluded (in particular `A` singular raises no error: `pinv2` is total and
the conditions hold for every `A`). -/
theorem C2_solve_is_pinv_per_pixel (m : ℕ) (A : Matrix (Fin 2) (Fin 2) ℝ)
    (uLos : Matrix (Fin 2) (Fin m) ℝ) :
    (∀ j : Fin m, (fun i => PySAR.solveVH m A uLos i j) =
        (PySAR.pinv2 A).mulVec (fun i => uLos i j)) ∧
    A * PySAR.pinv2 A * A = A ∧
    PySAR.pinv2 A * A * PySAR.pinv2 A = PySAR.pinv2 A ∧
    (A * PySAR.pinv2 A)ᵀ = A * PySAR.pinv2 A ∧
    (PySAR.pinv2 A * A)ᵀ = PySAR.pinv2 A * A := by
  refine ⟨fun j => ?_, PySAR.pinv2_mul_self A, PySAR.pinv2_self_mul A,
    PySAR.pinv2_mul_symm A, PySAR.pinv2_symm_mul A⟩
  funext i
  simp [PySAR.solveVH, Matrix.mul_apply, Matrix.mulVec, dotProduct]

/-- C3: `get_overlap_lalo` returns exactly
`(max(W1,W2), min(E1,E2), max(S1,S2), min(N1,N2))` as
(west, east, south, north); for two inputs with identical bounding boxes
the result is that shared box exactly. -/
theorem C3_overlap_is_max_min (atr1 atr2 : PySAR.Attr) :
    PySAR.get_overlap_lalo atr1 atr2 =
      (max atr1.west atr2.west, min atr1.east atr2.east,
        max atr1.south atr2.south, min atr1.north atr2.north) ∧
    (PySAR.four_corners atr1 = PySAR.four_corners atr2 →
      PySAR.get_overlap_lalo atr1 atr2 = PySAR.four_corners atr1) := by
  constructor
  · rfl
  · intro h
    simp only [PySAR.four_corners, Prod.mk.injEq] at h
    obtain ⟨hw, he, hs, hn⟩ := h
    simp [PySAR.get_overlap_lalo, PySAR.four_corners, hw, he, hs, hn]

/-- Witness for C3 at two concrete inputs sharing a bounding box. -/
theorem C3_overlap_is_max_min_witness :
    PySAR.four_corners PySAR.atrStepA = PySAR.four_corners PySAR.atrStepB ∧
    PySAR.get_overlap_lalo PySAR.atrStepA PySAR.atrStepB =
      PySAR.four_corners PySAR.atrStepA := by
  have hfc : PySAR.four_corners PySAR.atrStepA =
      PySAR.four_corners PySAR.atrStepB := by
    simp [PySAR.four_corners, PySAR.atrStepA, PySAR.atrStepB]
  exact ⟨hfc, (C3_overlap_is_max_min PySAR.atrStepA PySAR.atrStepB).2 hfc⟩

/-- C4 counterexample: for the geographically disjoint geocoded inputs
`atrDisjA` and `atrDisjB` the computed footprint is degenerate
(west = 2 ≥ 1 = east and south = 2 ≥ 1 = north), yet `main`'s setup stage
completes without signalling any error — it returns the degenerate extent
and the dimensions rounded from it (here width = length = −1) instead of
aborting, refuting the claim. -/
theorem C4_counterexample :
    PySAR.get_overlap_lalo PySAR.atrDisjA PySAR.atrDisjB = (2, 1, 2, 1) ∧
    (2 : ℝ) ≥ 1 ∧
    PySAR.mainSetup PySAR.atrDisjA PySAR.atrDisjB =
      Except.ok ⟨2, 1, 2, 1, 1, -1, -1, -1⟩ := by
  refine ⟨?_, by norm_num, ?_⟩
  · simp [PySAR.get_overlap_lalo, PySAR.four_corners, PySAR.atrDisjA,
      PySAR.atrDisjB]
  · unfold PySAR.mainSetup
    rw [if_neg (by simp [PySAR.atrDisjA, PySAR.atrDisjB, PySAR.geoDict])]
    simp only [PySAR.atrDisjA, PySAR.atrDisjB, PySAR.get_overlap_lalo,
      PySAR.four_corners]
    norm_num [PySAR.pyRound, PySAR.SetupResult.mk.injEq]

/-- C4 amended: the setup stage performs no degenerate-footprint check at
all: for every pair of geocoded inputs — overlapping or disjoint — it
completes without error and returns the (possibly degenerate) overlap
extent together with width/length rounded from it (possibly non-positive);
nothing is clamped and no error path exists besides the geocoding check. -/
theorem C4_no_degenerate_footprint_check (atr1 atr2 : PySAR.Attr)
    (h1 : atr1.dict "X_FIRST" ≠ none) (h2 : atr2.dict "X_FIRST" ≠ none) :
    PySAR.mainSetup atr1 atr2 = Except.ok
      ⟨max atr1.west atr2.west, min atr1.east atr2.east,
        max atr1.south atr2.south, min atr1.north atr2.north,
        atr1.xStep, atr1.yStep,
        PySAR.pyRound
          ((min atr1.east atr2.east - max atr1.west atr2.west) /
            atr1.xStep),
        PySAR.pyRound
          ((max atr1.south atr2.south - min atr1.north atr2.north) /
            atr1.yStep)⟩ := by
  unfold PySAR.mainSetup
  rw [if_neg (by tauto)]
  rfl

/-- Witness for C4's amended theorem at the concrete disjoint inputs. -/
theorem C4_no_degenerate_footprint_check_witness :
    PySAR.atrDisjA.dict "X_FIRST" ≠ none ∧
    PySAR.atrDisjB.dict "X_FIRST" ≠ none ∧
    PySAR.mainSetup PySAR.atrDisjA PySAR.atrDisjB = Except.ok
      ⟨max PySAR.atrDisjA.west PySAR.atrDisjB.west,
        min PySAR.atrDisjA.east PySAR.atrDisjB.east,
        max PySAR.atrDisjA.south PySAR.atrDisjB.south,
        min PySAR.atrDisjA.north PySAR.atrDisjB.north,
        PySAR.atrDisjA.xStep, PySAR.atrDisjA.yStep,
        PySAR.pyRound
          ((min PySAR.atrDisjA.east PySAR.atrDisjB.east -
              max PySAR.atrDisjA.west PySAR.atrDisjB.west) /
            PySAR.atrDisjA.xStep),
        PySAR.pyRound
          ((max PySAR.atrDisjA.south PySAR.atrDisjB.south -
              min PySAR.atrDisjA.north PySAR.atrDisjB.north) /
            PySAR.atrDisjA.yStep)⟩ := by
  have ha : PySAR.atrDisjA.dict "X_FIRST" ≠ none := by
    simp [PySAR.atrDisjA, PySAR.geoDict]
  have hb : PySAR.atrDisjB.dict "X_FIRST" ≠ none := by
    simp [PySAR.atrDisjB, PySAR.geoDict]
  exact ⟨ha, hb,
    C4_no_degenerate_footprint_check PySAR.atrDisjA PySAR.atrDisjB ha hb⟩

/-- C5 counterexample: `atrStepA` and `atrStepB` are geocoded inputs whose
pixel steps differ (1/1000 vs 1/500), yet the setup stage reports no error
at all: it returns successfully, using the first input's steps, refuting
the claim that only exactly-matching steps proceed to the solve. -/
theorem C5_counterexample :
    PySAR.atrStepA.xStep ≠ PySAR.atrStepB.xStep ∧
    PySAR.mainSetup PySAR.atrStepA PySAR.atrStepB =
      Except.ok ⟨0, 1, 0, 1, 1 / 1000, -(1 / 1000), 1000, 1000⟩ := by
  constructor
  · simp only [PySAR.atrStepA, PySAR.atrStepB]
    norm_num
  · unfold PySAR.mainSetup
    rw [if_neg (by simp [PySAR.atrStepA, PySAR.atrStepB, PySAR.geoDict])]
    simp only [PySAR.atrStepA, PySAR.atrStepB, PySAR.get_overlap_lalo,
      PySAR.four_corners]
    norm_num [PySAR.pyRound, PySAR.SetupResult.mk.injEq]

/-- C5 amended: no pixel-step comparison is performed anywhere: for every
pair of geocoded inputs, with matching or mismatched steps, the setup
stage completes without error and unconditionally takes the FIRST input's
`X_STEP`/`Y_STEP` as the working step sizes. -/
theorem C5_no_step_mismatch_check (atr1 atr2 : PySAR.Attr)
    (h1 : atr1.dict "X_FIRST" ≠ none) (h2 : atr2.dict "X_FIRST" ≠ none)
    (hx : atr1.xStep ≠ atr2.xStep) :
    PySAR.mainSetup atr1 atr2 = Except.ok
      ⟨(PySAR.get_overlap_lalo atr1 atr2).1,
        (PySAR.get_overlap_lalo atr1 atr2).2.1,
        (PySAR.get_overlap_lalo atr1 atr2).2.2.1,
        (PySAR.get_overlap_lalo atr1 atr2).2.2.2,
        atr1.xStep, atr1.yStep,
        PySAR.pyRound
          (((PySAR.get_overlap_lalo atr1 atr2).2.1 -
              (PySAR.get_overlap_lalo atr1 atr2).1) / atr1.xStep),
        PySAR.pyRound
          (((PySAR.get_overlap_lalo atr1 atr2).2.2.1 -
              (PySAR.get_overlap_lalo atr1 atr2).2.2.2) / atr1.yStep)⟩ := by
  unfold PySAR.mainSetup
  rw [if_neg (by tauto)]

/-- Witness for C5's amended theorem at the concrete mismatched inputs. -/
theorem C5_no_step_mismatch_check_witness :
    PySAR.atrStepA.dict "X_FIRST" ≠ none ∧
    PySAR.atrStepB.dict "X_FIRST" ≠ none ∧
    PySAR.atrStepA.xStep ≠ PySAR.atrStepB.xStep ∧
    PySAR.mainSetup PySAR.atrStepA PySAR.atrStepB = Except.ok
      ⟨(PySAR.get_overlap_lalo PySAR.atrStepA PySAR.atrStepB).1,
        (PySAR.get_overlap_lalo PySAR.atrStepA PySAR.atrStepB).2.1,
        (PySAR.get_overlap_lalo PySAR.atrStepA PySAR.atrStepB).2.2.1,
        (PySAR.get_overlap_lalo PySAR.atrStepA PySAR.atrStepB).2.2.2,
        PySAR.atrStepA.xStep, PySAR.atrStepA.yStep,
        PySAR.pyRound
          (((PySAR.get_overlap_lalo PySAR.atrStepA PySAR.atrStepB).2.1 -
              (PySAR.get_overlap_lalo PySAR.atrStepA PySAR.atrStepB).1) /
            PySAR.atrStepA.xStep),
        PySAR.pyRound
          (((PySAR.get_overlap_lalo PySAR.atrStepA PySAR.atrStepB).2.2.1 -
              (PySAR.get_overlap_lalo PySAR.atrStepA
                  PySAR.atrStepB).2.2.2) /
            PySAR.atrStepA.yStep)⟩ := by
  have ha : PySAR.atrStepA.dict "X_FIRST" ≠ none := by
    simp [PySAR.atrStepA, PySAR.geoDict]
  have hb : PySAR.atrStepB.dict "X_FIRST" ≠ none := by
    simp [PySAR.atrStepB, PySAR.geoDict]
  have hx : PySAR.atrStepA.xStep ≠ PySAR.atrStepB.xStep := by
    simp only [PySAR.atrStepA, PySAR.atrStepB]
    norm_num
  exact ⟨ha, hb, hx,
    C5_no_step_mismatch_check PySAR.atrStepA PySAR.atrStepB ha hb hx⟩

/-- C8: `main` aborts with the descriptive geocoding error exactly when at
least one input's dictionary lacks `X_FIRST`, and this happens before the
footprint stage (the error branch of `mainSetup` precedes any use of
`get_overlap_lalo`); when both inputs carry the attribute, no abort occurs
and the setup succeeds. -/
theorem C8_geocoding_gate (atr1 atr2 : PySAR.Attr) :
    (PySAR.mainSetup atr1 atr2 =
        Except.error "ERROR: Not all input files are geocoded." ↔
      (atr1.dict "X_FIRST" = none ∨ atr2.dict "X_FIRST" = none)) ∧
    ((atr1.dict "X_FIRST" ≠ none ∧ atr2.dict "X_FIRST" ≠ none) →
      PySAR.mainSetup atr1 atr2 = Except.ok
        ⟨(PySAR.get_overlap_lalo atr1 atr2).1,
          (PySAR.get_overlap_lalo atr1 atr2).2.1,
          (PySAR.get_overlap_lalo atr1 atr2).2.2.1,
          (PySAR.get_overlap_lalo atr1 atr2).2.2.2,
          atr1.xStep, atr1.yStep,
          PySAR.pyRound
            (((PySAR.get_overlap_lalo atr1 atr2).2.1 -
                (PySAR.get_overlap_lalo atr1 atr2).1) / atr1.xStep),
          PySAR.pyRound
            (((PySAR.get_overlap_lalo atr1 atr2).2.2.1 -
                (PySAR.get_overlap_lalo atr1 atr2).2.2.2) /
              atr1.yStep)⟩) := by
  constructor
  · unfold PySAR.mainSetup
    by_cases h : atr1.dict "X_FIRST" = none ∨ atr2.dict "X_FIRST" = none
    · rw [if_pos h]
      simp [h]
    · rw [if_neg h]
      simp [h]
  · intro h
    unfold PySAR.mainSetup
    rw [if_neg (by tauto)]

/-- Witness for C8: with a non-geocoded first input the error fires; with
two geocoded inputs the setup succeeds. -/
theorem C8_geocoding_gate_witness :
    PySAR.mainSetup PySAR.atrNoGeo PySAR.atrDisjA =
      Except.error "ERROR: Not all input files are geocoded." ∧
    PySAR.atrDisjA.dict "X_FIRST" ≠ none ∧
    PySAR.atrDisjB.dict "X_FIRST" ≠ none ∧
    PySAR.mainSetup PySAR.atrDisjA PySAR.atrDisjB = Except.ok
      ⟨(PySAR.get_overlap_lalo PySAR.atrDisjA PySAR.atrDisjB).1,
        (PySAR.get_overlap_lalo PySAR.atrDisjA PySAR.atrDisjB).2.1,
        (PySAR.get_overlap_lalo PySAR.atrDisjA PySAR.atrDisjB).2.2.1,
        (PySAR.get_overlap_lalo PySAR.atrDisjA PySAR.atrDisjB).2.2.2,
        PySAR.atrDisjA.xStep, PySAR.atrDisjA.yStep,
        PySAR.pyRound
          (((PySAR.get_overlap_lalo PySAR.atrDisjA PySAR.atrDisjB).2.1 -
              (PySAR.get_overlap_lalo PySAR.atrDisjA PySAR.atrDisjB).1) /
            PySAR.atrDisjA.xStep),
        PySAR.pyRound
          (((PySAR.get_overlap_lalo PySAR.atrDisjA
                  PySAR.atrDisjB).2.2.1 -
              (PySAR.get_overlap_lalo PySAR.atrDisjA
                  PySAR.atrDisjB).2.2.2) /
            PySAR.atrDisjA.yStep)⟩ := by
  have ha : PySAR.atrDisjA.dict "X_FIRST" ≠ none := by
    simp [PySAR.atrDisjA, PySAR.geoDict]
  have hb : PySAR.atrDisjB.dict "X_FIRST" ≠ none := by
    simp [PySAR.atrDisjB, PySAR.geoDict]
  refine ⟨?_, ha, hb,
    (C8_geocoding_gate PySAR.atrDisjA PySAR.atrDisjB).2 ⟨ha, hb⟩⟩
  exact (C8_geocoding_gate PySAR.atrNoGeo PySAR.atrDisjA).1.mpr
    (Or.inl (by simp [PySAR.atrNoGeo]))

/-- C6: a heading in [−360°, 0°) is normalized to `h + 360` before the
radian conversion, the design matrix built from it is identical to the one
built from the already-normalized `h + 360`, and the user azimuth goes
through the same shift-by-+360-if-negative normalization, so an azimuth in
[−360°, 0°) is likewise interchangeable with `az + 360`. -/
theorem C6_heading_normalization (incidence hdeg : Fin 2 → ℝ) (az : ℝ)
    (hlo : ∀ i, -360 ≤ hdeg i) (hhi : ∀ i, hdeg i < 0)
    (hazlo : -360 ≤ az) (hazhi : az < 0) :
    (∀ i, PySAR.normalizeAngle (hdeg i) = hdeg i + 360) ∧
    (∀ i, PySAR.headingRad (hdeg i) = PySAR.deg2rad (hdeg i + 360)) ∧
    PySAR.designMatrix incidence (fun i => PySAR.headingRad (hdeg i))
        (PySAR.azimuthRad az) =
      PySAR.designMatrix incidence
        (fun i => PySAR.headingRad (hdeg i + 360))
        (PySAR.azimuthRad az) ∧
    PySAR.azimuthRad az = PySAR.azimuthRad (az + 360) := by
  have hnorm : ∀ i, PySAR.normalizeAngle (hdeg i) = hdeg i + 360 := by
    intro i
    simp only [PySAR.normalizeAngle]
    rw [if_pos (hhi i)]
  have hrad : ∀ i,
      PySAR.headingRad (hdeg i) = PySAR.deg2rad (hdeg i + 360) := by
    intro i
    rw [PySAR.headingRad, hnorm i]
  have hsame : (fun i => PySAR.headingRad (hdeg i)) =
      fun i => PySAR.headingRad (hdeg i + 360) := by
    funext i
    rw [hrad i, PySAR.headingRad]
    simp only [PySAR.normalizeAngle]
    rw [if_neg (by linarith [hlo i])]
  refine ⟨hnorm, hrad, by rw [hsame], ?_⟩
  rw [PySAR.azimuthRad, PySAR.azimuthRad]
  simp only [PySAR.normalizeAngle]
  rw [if_pos hazhi, if_neg (by linarith)]

/-- Witness for C6 at concrete headings −90° and −100° and azimuth −45°. -/
theorem C6_heading_normalization_witness :
    (∀ i, -360 ≤ PySAR.hdegW i) ∧ (∀ i, PySAR.hdegW i < 0) ∧
    (-360 : ℝ) ≤ -45 ∧ (-45 : ℝ) < 0 ∧
    ((∀ i, PySAR.normalizeAngle (PySAR.hdegW i) = PySAR.hdegW i + 360) ∧
      (∀ i, PySAR.headingRad (PySAR.hdegW i) =
        PySAR.deg2rad (PySAR.hdegW i + 360)) ∧
      PySAR.designMatrix PySAR.incW
          (fun i => PySAR.headingRad (PySAR.hdegW i))
          (PySAR.azimuthRad (-45)) =
        PySAR.designMatrix PySAR.incW
          (fun i => PySAR.headingRad (PySAR.hdegW i + 360))
          (PySAR.azimuthRad (-45)) ∧
      PySAR.azimuthRad (-45) = PySAR.azimuthRad (-45 + 360)) := by
  have h1 : ∀ i : Fin 2, -360 ≤ PySAR.hdegW i := by
    intro i
    have : ((i : ℝ)) ≤ 1 := by
      fin_cases i <;> norm_num
    simp only [PySAR.hdegW]
    linarith
  have h2 : ∀ i : Fin 2, PySAR.hdegW i < 0 := by
    intro i
    have : (0 : ℝ) ≤ ((i : ℝ)) := by positivity
    simp only [PySAR.hdegW]
    linarith
  exact ⟨h1, h2, by norm_num, by norm_num,
    C6_heading_normalization PySAR.incW PySAR.hdegW (-45) h1 h2
      (by norm_num) (by norm_num)⟩

/-- C7: with azimuth 90° and incidence 0° for both acquisitions, both
horizontal-coefficient entries of the design matrix are exactly zero, and
the solve still goes through (the pseudo-inverse is total): the horizontal
output row is identically zero — in particular finite — for every LOS
input. -/
theorem C7_overhead_degenerate_geometry (hd : Fin 2 → ℝ) (m : ℕ)
    (uLos : Matrix (Fin 2) (Fin m) ℝ) :
    (∀ i, PySAR.designMatrix (fun _ => PySAR.incidenceRad 0)
        (fun i => PySAR.headingRad (hd i)) (PySAR.azimuthRad 90) i 1
      = 0) ∧
    (∀ j, PySAR.solveVH m
        (PySAR.designMatrix (fun _ => PySAR.incidenceRad 0)
          (fun i => PySAR.headingRad (hd i)) (PySAR.azimuthRad 90))
        uLos 1 j = 0) := by
  have hcol : ∀ i, PySAR.designMatrix (fun _ => PySAR.incidenceRad 0)
      (fun i => PySAR.headingRad (hd i)) (PySAR.azimuthRad 90) i 1 = 0 := by
    intro i
    rw [(PySAR.designMatrix_apply (fun _ => PySAR.incidenceRad 0)
      (fun i => PySAR.headingRad (hd i)) (PySAR.azimuthRad 90) i).2]
    simp [PySAR.incidenceRad, PySAR.deg2rad]
  refine ⟨hcol, fun j => ?_⟩
  simp [PySAR.solveVH, Matrix.mul_apply, Fin.sum_univ_two,
    PySAR.pinv2_row1_zero hcol]

/-- C9: the Result Assembler reshapes each of the two flat solved vectors
into a `(length, width)` grid in row-major order — entry `(r, c)` is flat
entry `r·width + c`, with no numerical transformation — and the output
metadata carries the integer dimensions, the footprint origin
(west, north), and the first input's step sizes. -/
theorem C9_result_assembly (L W : ℕ) (uvh : Fin 2 → Fin (L * W) → ℝ)
    (atr1 : PySAR.Attr) (west north : ℝ) (fstr : ℝ → String)
    (out0 out1 : String) :
    (∀ (r : Fin L) (c : Fin W),
      (PySAR.mainOutputs L W uvh atr1 west north fstr out0 out1).1.data r c
        = uvh 0 ⟨r.val * W + c.val, (PySAR.flatIdx L W r c).isLt⟩) ∧
    (∀ (r : Fin L) (c : Fin W),
      (PySAR.mainOutputs L W uvh atr1 west north fstr out0 out1).2.data r c
        = uvh 1 ⟨r.val * W + c.val, (PySAR.flatIdx L W r c).isLt⟩) ∧
    (PySAR.mainOutputs L W uvh atr1 west north fstr out0 out1).1.rows
      = L ∧
    (PySAR.mainOutputs L W uvh atr1 west north fstr out0 out1).1.cols
      = W ∧
    (PySAR.mainOutputs L W uvh atr1 west north fstr out0 out1).1.attr
      "WIDTH" = some (toString W) ∧
    (PySAR.mainOutputs L W uvh atr1 west north fstr out0 out1).1.attr
      "FILE_LENGTH" = some (toString L) ∧
    (PySAR.mainOutputs L W uvh atr1 west north fstr out0 out1).1.attr
      "X_FIRST" = some (fstr west) ∧
    (PySAR.mainOutputs L W uvh atr1 west north fstr out0 out1).1.attr
      "Y_FIRST" = some (fstr north) ∧
    (PySAR.mainOutputs L W uvh atr1 west north fstr out0 out1).1.attr
      "X_STEP" = some (fstr atr1.xStep) ∧
    (PySAR.mainOutputs L W uvh atr1 west north fstr out0 out1).1.attr
      "Y_STEP" = some (fstr atr1.yStep) := by
  refine ⟨fun r c => rfl, fun r c => rfl, rfl, rfl, ?_, ?_, ?_, ?_, ?_, ?_⟩
    <;> simp [PySAR.mainOutputs, PySAR.updateAttrs, Function.update]

/-- C10: the output metadata is the first input's dictionary with exactly
the six keys `WIDTH`, `FILE_LENGTH`, `X_FIRST`, `Y_FIRST`, `X_STEP`,
`Y_STEP` overwritten; every other key — `HEADING`, `FILE_TYPE`, anything
else — is passed through unchanged, and the vertical and horizontal write
calls carry the identical dictionary. -/
theorem C10_metadata_frame (L W : ℕ) (uvh : Fin 2 → Fin (L * W) → ℝ)
    (atr1 : PySAR.Attr) (west north : ℝ) (fstr : ℝ → String)
    (out0 out1 : String) (k : String)
    (hk : k ∉ ["WIDTH", "FILE_LENGTH", "X_FIRST", "Y_FIRST", "X_STEP",
      "Y_STEP"]) :
    (PySAR.mainOutputs L W uvh atr1 west north fstr out0 out1).1.attr k
      = atr1.dict k ∧
    (PySAR.mainOutputs L W uvh atr1 west north fstr out0 out1).2.attr
      = (PySAR.mainOutputs L W uvh atr1 west north fstr out0 out1).1.attr ∧
    (PySAR.mainOutputs L W uvh atr1 west north fstr out0 out1).1.attr
      "WIDTH" = some (toString W) ∧
    (PySAR.mainOutputs L W uvh atr1 west north fstr out0 out1).1.attr
      "FILE_LENGTH" = some (toString L) ∧
    (PySAR.mainOutputs L W uvh atr1 west north fstr out0 out1).1.attr
      "X_FIRST" = some (fstr west) ∧
    (PySAR.mainOutputs L W uvh atr1 west north fstr out0 out1).1.attr
      "Y_FIRST" = some (fstr north) ∧
    (PySAR.mainOutputs L W uvh atr1 west north fstr out0 out1).1.attr
      "X_STEP" = some (fstr atr1.xStep) ∧
    (PySAR.mainOutputs L W uvh atr1 west north fstr out0 out1).1.attr
      "Y_STEP" = some (fstr atr1.yStep) := by
  simp only [List.mem_cons, List.mem_singleton, not_or] at hk
  obtain ⟨hk1, hk2, hk3, hk4, hk5, hk6⟩ := hk
  refine ⟨?_, rfl, ?_, ?_, ?_, ?_, ?_, ?_⟩ <;>
    simp [PySAR.mainOutputs, PySAR.updateAttrs, Function.update,
      hk1, hk2, hk3, hk4, hk5, hk6]

/-- Witness for C10 at a concrete run: the key `HEADING` of the first
input survives unchanged into both outputs. -/
theorem C10_metadata_frame_witness :
    ("HEADING" : String) ∉ ["WIDTH", "FILE_LENGTH", "X_FIRST", "Y_FIRST",
      "X_STEP", "Y_STEP"] ∧
    ((PySAR.mainOutputs 1 2 (fun _ _ => 0) PySAR.atrMeta 0 1
        (fun _ => "0.5") "up.h5" "hz.h5").1.attr "HEADING"
      = PySAR.atrMeta.dict "HEADING" ∧
    (PySAR.mainOutputs 1 2 (fun _ _ => 0) PySAR.atrMeta 0 1
        (fun _ => "0.5") "up.h5" "hz.h5").2.attr
      = (PySAR.mainOutputs 1 2 (fun _ _ => 0) PySAR.atrMeta 0 1
        (fun _ => "0.5") "up.h5" "hz.h5").1.attr ∧
    (PySAR.mainOutputs 1 2 (fun _ _ => 0) PySAR.atrMeta 0 1
        (fun _ => "0.5") "up.h5" "hz.h5").1.attr "WIDTH"
      = some (toString 2) ∧
    (PySAR.mainOutputs 1 2 (fun _ _ => 0) PySAR.atrMeta 0 1
        (fun _ => "0.5") "up.h5" "hz.h5").1.attr "FILE_LENGTH"
      = some (toString 1) ∧
    (PySAR.mainOutputs 1 2 (fun _ _ => 0) PySAR.atrMeta 0 1
        (fun _ => "0.5") "up.h5" "hz.h5").1.attr "X_FIRST"
      = some ((fun _ : ℝ => "0.5") 0) ∧
    (PySAR.mainOutputs 1 2 (fun _ _ => 0) PySAR.atrMeta 0 1
        (fun _ => "0.5") "up.h5" "hz.h5").1.attr "Y_FIRST"
      = some ((fun _ : ℝ => "0.5") 1) ∧
    (PySAR.mainOutputs 1 2 (fun _ _ => 0) PySAR.atrMeta 0 1
        (fun _ => "0.5") "up.h5" "hz.h5").1.attr "X_STEP"
      = some ((fun _ : ℝ => "0.5") PySAR.atrMeta.xStep) ∧
    (PySAR.mainOutputs 1 2 (fun _ _ => 0) PySAR.atrMeta 0 1
        (fun _ => "0.5") "up.h5" "hz.h5").1.attr "Y_STEP"
      = some ((fun _ : ℝ => "0.5") PySAR.atrMeta.yStep)) :=
  ⟨by decide,
    C10_metadata_frame 1 2 (fun _ _ => 0) PySAR.atrMeta 0 1
      (fun _ => "0.5") "up.h5" "hz.h5" "HEADING" (by decide)⟩

end
